import Mathlib

/-!
Shallow embedding of `src/railway.py` (Railway Passenger & Cargo Management
System): classes `Train`, `TrainTrip`, `Passenger` and their operations.

Python mutation is modelled by explicit state passing: each operation that
mutates an object returns the object's post-state alongside its result, and
a raised exception is an `Except.error` that leaves every post-state equal
to the pre-state.  Python numbers (`int | float` cargo weights) are modelled
as `Int`; Python object identity for `Passenger` (the default `__eq__`, used
by `in` and `list.remove`) is modelled by a `pid : Nat` field, so that two
passengers with the same name and cargo weight can still be distinguished.
-/

/-- The exceptions raised by `railway.py`, one constructor per distinct
`raise Exception(...)` message. -/
inductive RailwayError where
  | invalidTrain          -- "This input is not a train!"
  | trainUnavailable      -- "This train is currently on another trip!"
  | unknownCity           -- "This input is not a verified city!"
  | sameCity              -- "Origin and destination cities can't be the same!"
  | trainNotAtOrigin      -- "The train for this trip is not available at the origin city!"
  | insufficientCapacity  -- "Heavy load!"
  | notOnTrip             -- "This passenger is not assigned to this trip!"
deriving DecidableEq

/-- `class Train`: a plain data holder with three fields. -/
structure Train where
  last_station : String
  max_cargo_weight : Int
  on_trip : Bool
deriving DecidableEq

/-- A Python value passed as the `train` argument of `TrainTrip.__init__`:
either an actual `Train` instance or any other object (for which
`isinstance(train, Train)` is false). -/
inductive PyVal where
  | train (t : Train)
  | other
deriving DecidableEq

/-- `class Passenger`: name, cargo weight, plus `pid` modelling Python
object identity. -/
structure Passenger where
  pid : Nat
  name : String
  cargo_weight : Int
deriving DecidableEq

/-- `class TrainTrip`: the state of a constructed trip object. -/
structure TrainTrip where
  train : Train
  origin_city : String
  destination_city : String
  passengers : List Passenger
deriving DecidableEq

namespace TrainTrip

/-- `TrainTrip.AVAILABLE_CITIES`: the fixed 30-city tuple, verbatim. -/
def AVAILABLE_CITIES : List String :=
  ["Arak", "Ardabil", "Urmia", "Isfahan", "Ahvaz", "Ilam",
   "Bojnord", "Bandar Abbas", "Bushehr", "Birjand", "Tabriz",
   "Tehran", "Khorramabad", "Rasht", "Zahedan", "Zanjan", "Sari",
   "Semnan", "Sanandaj", "Shahr-e Kord", "Shiraz", "Qazvin", "Qom",
   "Karaj", "Kermanshah", "Gorgan", "Mashhad", "Hamadan", "Yasuj",
   "Yazd"]

/-- `TrainTrip.validate_train`: `isinstance` check then the `on_trip`
check, in source order. -/
def validate_train (train : PyVal) : Except RailwayError Train :=
  match train with
  | .other => .error .invalidTrain
  | .train t => if t.on_trip then .error .trainUnavailable else .ok t

/-- `TrainTrip.validate_origin_city`: membership in `AVAILABLE_CITIES`,
then equality with `self.destination_city`, then equality with
`self.train.last_station`, in source order.  `train` and
`destination_city` are the fields of `self` it reads. -/
def validate_origin_city (train : Train) (destination_city : String)
    (origin_city : String) : Except RailwayError String :=
  if origin_city ∉ AVAILABLE_CITIES then .error .unknownCity
  else if origin_city = destination_city then .error .sameCity
  else if origin_city ≠ train.last_station then .error .trainNotAtOrigin
  else .ok origin_city

/-- `TrainTrip.__init__`: validates the train, stores the destination,
validates the origin, and initialises `passengers` to the empty list.
Returns the constructed trip, or the first error raised. -/
def new (origin_city destination_city : String) (train : PyVal) :
    Except RailwayError TrainTrip :=
  match validate_train train with
  | .error e => .error e
  | .ok t =>
    match validate_origin_city t destination_city origin_city with
    | .error e => .error e
    | .ok o =>
      .ok { train := t, origin_city := o,
            destination_city := destination_city, passengers := [] }

/-- `TrainTrip.__repr__`: folds over the current passenger list,
subtracting each `cargo_weight` from `train.max_cargo_weight`. -/
def __repr__ (self : TrainTrip) : Int :=
  self.passengers.foldl (fun remaining_capacity passenger =>
    remaining_capacity - passenger.cargo_weight) self.train.max_cargo_weight

/-- `TrainTrip.__call__`: `trip()` returns `self.__repr__()`. -/
def __call__ (self : TrainTrip) : Int :=
  self.__repr__

end TrainTrip

namespace Passenger

/-- `Passenger.join_trip`: if `self.cargo_weight <= trip()`, append self to
`trip.passengers`, else raise `Heavy load!`.  Result is
`(raised-or-ok, trip post-state, self post-state)`. -/
def join_trip (self : Passenger) (trip : TrainTrip) :
    Except RailwayError Unit × TrainTrip × Passenger :=
  if self.cargo_weight ≤ trip.__call__ then
    (.ok (), { trip with passengers := trip.passengers ++ [self] }, self)
  else
    (.error .insufficientCapacity, trip, self)

/-- `Passenger.leave_trip`: if `self in trip.passengers` (Python identity
equality), `trip.passengers.remove(self)` deletes the first occurrence,
else raise.  Result is `(raised-or-ok, trip post-state, self post-state)`. -/
def leave_trip (self : Passenger) (trip : TrainTrip) :
    Except RailwayError Unit × TrainTrip × Passenger :=
  if self ∈ trip.passengers then
    (.ok (), { trip with passengers := trip.passengers.erase self }, self)
  else
    (.error .notOnTrip, trip, self)

/-- `Passenger.__str__`: the passenger's name. -/
def __str__ (self : Passenger) : String :=
  self.name

end Passenger

/-- Total cargo weight of a passenger list. -/
def cargoSum (l : List Passenger) : Int :=
  (l.map Passenger.cargo_weight).sum

/-- The capacity invariant of a trip: boarded cargo never exceeds the
train's maximum. -/
def TrainTrip.capacityInv (self : TrainTrip) : Prop :=
  cargoSum self.passengers ≤ self.train.max_cargo_weight

deriving instance DecidableEq for Except

/-- Concrete fixture drawn from the test cases at the bottom of
`railway.py`. -/
def sampleTrain : Train := ⟨"Sanandaj", 34286, false⟩

/-- The passenger `Passenger(name="Ali Saeedi", cargo_weight=616)`. -/
def ali : Passenger := ⟨1, "Ali Saeedi", 616⟩

/-- The passenger `Passenger(name="Abolfazl Zandi", cargo_weight=349)`. -/
def abolfazl : Passenger := ⟨2, "Abolfazl Zandi", 349⟩

/-- The trip of the source's test cases, right after construction. -/
def sampleTrip : TrainTrip := ⟨sampleTrain, "Sanandaj", "Rasht", []⟩

/-- A passenger whose cargo exactly fills `sampleTrain`. -/
def fullLoad : Passenger := ⟨3, "Full Load", 34286⟩

/-- A passenger whose cargo exceeds `sampleTrain`'s capacity. -/
def heavyLoad : Passenger := ⟨4, "Heavy Load", 40000⟩

/-- Helper: the subtraction fold of `__repr__` equals the initial value
minus the total cargo weight. -/
theorem foldl_sub_cargo (l : List Passenger) (init : Int) :
    l.foldl (fun acc p => acc - p.cargo_weight) init = init - cargoSum l := by
  induction l generalizing init with
  | nil => simp [cargoSum]
  | cons p ps ih =>
    simp only [List.foldl_cons, ih, cargoSum, List.map_cons, List.sum_cons]
    ring

/-- Helper: `__call__` is `max_cargo_weight` minus the current cargo sum. -/
theorem call_eq_sub (trip : TrainTrip) :
    trip.__call__ = trip.train.max_cargo_weight - cargoSum trip.passengers := by
  simp [TrainTrip.__call__, TrainTrip.__repr__, foldl_sub_cargo]

/-- Helper: appending a passenger adds its cargo weight to the sum. -/
theorem cargoSum_append (l : List Passenger) (p : Passenger) :
    cargoSum (l ++ [p]) = cargoSum l + p.cargo_weight := by
  simp [cargoSum]

/-- Helper: erasing a present passenger subtracts its cargo weight. -/
theorem cargoSum_erase (p : Passenger) (l : List Passenger) (hp : p ∈ l) :
    cargoSum l = p.cargo_weight + cargoSum (l.erase p) := by
  have h : (l.map Passenger.cargo_weight).Perm
      ((p :: l.erase p).map Passenger.cargo_weight) :=
    (List.perm_cons_erase hp).map Passenger.cargo_weight
  simpa [cargoSum] using h.sum_eq

/-- Helper: complete characterisation of a successful `TrainTrip.__init__`
on an actual `Train` argument. -/
theorem new_train_ok_iff (o d : String) (t : Train) (trip : TrainTrip) :
    TrainTrip.new o d (.train t) = .ok trip ↔
      t.on_trip = false ∧ o ∈ TrainTrip.AVAILABLE_CITIES ∧ o ≠ d ∧
      o = t.last_station ∧ trip = ⟨t, o, d, []⟩ := by
  cases hb : t.on_trip with
  | true => simp [TrainTrip.new, TrainTrip.validate_train, hb]
  | false =>
    by_cases hm : o ∈ TrainTrip.AVAILABLE_CITIES
    · by_cases hd : o = d
      · subst hd
        simp [TrainTrip.new, TrainTrip.validate_train,
          TrainTrip.validate_origin_city, hb, hm]
      · by_cases hs : o = t.last_station
        · subst hs
          simp [TrainTrip.new, TrainTrip.validate_train,
            TrainTrip.validate_origin_city, hb, hm, hd, eq_comm]
        · simp [TrainTrip.new, TrainTrip.validate_train,
            TrainTrip.validate_origin_city, hb, hm, hd, hs]
    · simp [TrainTrip.new, TrainTrip.validate_train,
        TrainTrip.validate_origin_city, hb, hm]

/-- Helper: `TrainTrip.__init__` on a non-`Train` argument always fails. -/
theorem new_other_eq (o d : String) :
    TrainTrip.new o d PyVal.other = .error .invalidTrain := rfl

/-- C1 (counterexample): with a valid, available train, constructing a trip
whose origin equals its destination does not always fail with
`SameCityError`: for the non-enumerated city "Atlantis" the membership
check fires first and the constructor raises `UnknownCityError`. -/
theorem c1_sameCity_not_unconditional :
    TrainTrip.new "Atlantis" "Atlantis" (.train ⟨"Atlantis", 100, false⟩) =
      .error .unknownCity ∧
    TrainTrip.new "Atlantis" "Atlantis" (.train ⟨"Atlantis", 100, false⟩) ≠
      .error .sameCity :=
  ⟨rfl, by decide⟩

/-- C1 (amended): with a valid, available train, constructing a trip with
`origin_city = destination_city` always fails: with `SameCityError` when
the shared city is in the 30-city enumeration, and with `UnknownCityError`
when it is not. -/
theorem c1_equal_cities_always_fail (o : String) (t : Train)
    (ht : t.on_trip = false) :
    (o ∈ TrainTrip.AVAILABLE_CITIES →
      TrainTrip.new o o (.train t) = .error .sameCity) ∧
    (o ∉ TrainTrip.AVAILABLE_CITIES →
      TrainTrip.new o o (.train t) = .error .unknownCity) := by
  constructor <;> intro hm <;>
    simp [TrainTrip.new, TrainTrip.validate_train,
      TrainTrip.validate_origin_city, ht, hm]

/-- C1 (witness): `c1_equal_cities_always_fail` at the enumerated city
"Rasht" and the sample train. -/
theorem c1_equal_cities_always_fail_w :
    TrainTrip.new "Rasht" "Rasht" (.train sampleTrain) = .error .sameCity :=
  (c1_equal_cities_always_fail "Rasht" sampleTrain rfl).1 (by decide)

/-- C2: the remaining-capacity query (`trip()` / `__repr__`) always equals
`train.max_cargo_weight` minus the sum of `cargo_weight` over the current
passenger list, recomputed from that list; and immediately after a
successful construction it equals `train.max_cargo_weight`. -/
theorem c2_remaining_capacity (trip : TrainTrip) (o d : String) (a : PyVal) :
    trip.__call__ = trip.train.max_cargo_weight - cargoSum trip.passengers ∧
    (TrainTrip.new o d a = .ok trip →
      trip.__call__ = trip.train.max_cargo_weight) := by
  refine ⟨call_eq_sub trip, fun h => ?_⟩
  cases a with
  | other => exact absurd h (by simp [new_other_eq])
  | train t =>
    rcases (new_train_ok_iff o d t trip).1 h with ⟨-, -, -, -, rfl⟩
    simp [call_eq_sub, cargoSum]

/-- C2 (witness): `c2_remaining_capacity` at the source's test trip. -/
theorem c2_remaining_capacity_w :
    sampleTrip.__call__ =
      sampleTrip.train.max_cargo_weight - cargoSum sampleTrip.passengers ∧
    sampleTrip.__call__ = sampleTrip.train.max_cargo_weight :=
  ⟨(c2_remaining_capacity sampleTrip "Sanandaj" "Rasht" (.train sampleTrain)).1,
   (c2_remaining_capacity sampleTrip "Sanandaj" "Rasht" (.train sampleTrain)).2
     (by decide)⟩

/-- C3: `join_trip` fails with `InsufficientCapacityError` iff the
passenger's cargo weight strictly exceeds the trip's remaining capacity at
call time; when it is less than or equal (including exact equality) the
join succeeds and appends the passenger as the last element of
`trip.passengers` — with no guard against appending the same passenger
twice, since this holds for every current list, including ones already
containing the passenger. -/
theorem c3_join_characterisation (p : Passenger) (trip : TrainTrip) :
    ((p.join_trip trip).1 = .error .insufficientCapacity ↔
      trip.__call__ < p.cargo_weight) ∧
    (p.cargo_weight ≤ trip.__call__ →
      (p.join_trip trip).1 = .ok () ∧
      (p.join_trip trip).2.1.passengers = trip.passengers ++ [p]) := by
  constructor
  · constructor
    · intro he
      by_contra hlt
      rw [not_lt] at hlt
      simp [Passenger.join_trip, hlt] at he
    · intro hlt
      have h : ¬ p.cargo_weight ≤ trip.__call__ := not_le.mpr hlt
      simp [Passenger.join_trip, h]
  · intro h
    simp [Passenger.join_trip, h]

/-- C3 (witness): `c3_join_characterisation` at the exact-equality
boundary: a passenger whose cargo equals the full remaining capacity still
joins, landing at the end of the list (here, on a trip that already
contains that same passenger, exercising the duplicate append). -/
theorem c3_join_characterisation_w :
    (fullLoad.join_trip ⟨⟨"Sanandaj", 2 * 34286, false⟩, "Sanandaj", "Rasht",
        [fullLoad]⟩).1 = .ok () ∧
    (fullLoad.join_trip ⟨⟨"Sanandaj", 2 * 34286, false⟩, "Sanandaj", "Rasht",
        [fullLoad]⟩).2.1.passengers = [fullLoad] ++ [fullLoad] :=
  (c3_join_characterisation fullLoad
    ⟨⟨"Sanandaj", 2 * 34286, false⟩, "Sanandaj", "Rasht", [fullLoad]⟩).2
    (by decide)

/-- C4: when the passenger's cargo weight strictly exceeds the remaining
capacity, `join_trip` raises `InsufficientCapacityError` and leaves the
trip state — in particular `passengers` — exactly as it was. -/
theorem c4_join_error_atomic (p : Passenger) (trip : TrainTrip)
    (h : trip.__call__ < p.cargo_weight) :
    (p.join_trip trip).1 = .error .insufficientCapacity ∧
    (p.join_trip trip).2.1 = trip := by
  have hn : ¬ p.cargo_weight ≤ trip.__call__ := not_le.mpr h
  simp [Passenger.join_trip, hn]

/-- C4 (witness): `c4_join_error_atomic` at a 40000 kg passenger and the
34286 kg sample trip. -/
theorem c4_join_error_atomic_w :
    (heavyLoad.join_trip sampleTrip).1 = .error .insufficientCapacity ∧
    (heavyLoad.join_trip sampleTrip).2.1 = sampleTrip :=
  c4_join_error_atomic heavyLoad sampleTrip (by decide)

/-- C5: `TrainTrip.__init__` performs its checks in a fixed order and
raises the first applicable error: `InvalidTrainError` for a non-`Train`
argument; else `TrainUnavailableError` when `train.on_trip`; else
`UnknownCityError` when the origin is outside the enumeration; else
`SameCityError` when origin equals destination; else
`TrainNotAtOriginError` when the origin differs from
`train.last_station`.  In particular, when a train check and an
origin-city check would both fail, the train error is the one raised. -/
theorem c5_validation_order (o d : String) (a : PyVal) :
    (a = PyVal.other → TrainTrip.new o d a = .error .invalidTrain) ∧
    (∀ t, a = PyVal.train t →
      ((t.on_trip = true → TrainTrip.new o d a = .error .trainUnavailable) ∧
       (t.on_trip = false → o ∉ TrainTrip.AVAILABLE_CITIES →
          TrainTrip.new o d a = .error .unknownCity) ∧
       (t.on_trip = false → o ∈ TrainTrip.AVAILABLE_CITIES → o = d →
          TrainTrip.new o d a = .error .sameCity) ∧
       (t.on_trip = false → o ∈ TrainTrip.AVAILABLE_CITIES → o ≠ d →
          o ≠ t.last_station →
          TrainTrip.new o d a = .error .trainNotAtOrigin))) := by
  refine ⟨fun ha => ha ▸ new_other_eq o d, fun t ha => ?_⟩
  subst ha
  refine ⟨fun hb => ?_, fun hb hm => ?_, fun hb hm hd => ?_,
    fun hb hm hd hs => ?_⟩
  · simp [TrainTrip.new, TrainTrip.validate_train, hb]
  · simp [TrainTrip.new, TrainTrip.validate_train,
      TrainTrip.validate_origin_city, hb, hm]
  · subst hd
    simp [TrainTrip.new, TrainTrip.validate_train,
      TrainTrip.validate_origin_city, hb, hm]
  · simp [TrainTrip.new, TrainTrip.validate_train,
      TrainTrip.validate_origin_city, hb, hm, hd, hs]

/-- C5 (witness): one concrete input per branch of
`c5_validation_order`; the second shows a busy train beating an unknown
origin city. -/
theorem c5_validation_order_w :
    TrainTrip.new "Atlantis" "Atlantis" PyVal.other = .error .invalidTrain ∧
    TrainTrip.new "Atlantis" "Atlantis" (.train ⟨"Tehran", 100, true⟩) =
      .error .trainUnavailable ∧
    TrainTrip.new "Atlantis" "Rasht" (.train ⟨"Tehran", 100, false⟩) =
      .error .unknownCity ∧
    TrainTrip.new "Tehran" "Tehran" (.train ⟨"Tehran", 100, false⟩) =
      .error .sameCity ∧
    TrainTrip.new "Tehran" "Rasht" (.train ⟨"Qom", 100, false⟩) =
      .error .trainNotAtOrigin :=
  ⟨(c5_validation_order "Atlantis" "Atlantis" PyVal.other).1 rfl,
   ((c5_validation_order "Atlantis" "Atlantis"
      (.train ⟨"Tehran", 100, true⟩)).2 _ rfl).1 rfl,
   ((c5_validation_order "Atlantis" "Rasht"
      (.train ⟨"Tehran", 100, false⟩)).2 _ rfl).2.1 rfl (by decide),
   ((c5_validation_order "Tehran" "Tehran"
      (.train ⟨"Tehran", 100, false⟩)).2 _ rfl).2.2.1 rfl (by decide) rfl,
   ((c5_validation_order "Tehran" "Rasht"
      (.train ⟨"Qom", 100, false⟩)).2 _ rfl).2.2.2 rfl (by decide)
      (by decide) (by decide)⟩

/-- C6: for an available train located at an enumerated origin, any
destination string different from the origin — including strings outside
the 30-city enumeration — yields a successful construction that stores
the destination verbatim; destination membership is never checked. -/
theorem c6_destination_unchecked (t : Train) (o d : String)
    (ht : t.on_trip = false) (ho : o ∈ TrainTrip.AVAILABLE_CITIES)
    (hl : o = t.last_station) (hd : d ≠ o) :
    TrainTrip.new o d (.train t) = .ok ⟨t, o, d, []⟩ :=
  (new_train_ok_iff o d t _).2 ⟨ht, ho, fun h => hd h.symm, hl, rfl⟩

/-- C6 (witness): `c6_destination_unchecked` with the non-enumerated
destination "Gotham City". -/
theorem c6_destination_unchecked_w :
    TrainTrip.new "Sanandaj" "Gotham City" (.train sampleTrain) =
      .ok ⟨sampleTrain, "Sanandaj", "Gotham City", []⟩ :=
  c6_destination_unchecked sampleTrain "Sanandaj" "Gotham City" rfl
    (by decide) rfl (by decide)

/-- C7: when `trip.passengers` splits as `l₁ ++ p :: l₂` with `p ∉ l₁`
(so that occurrence is the earliest), `leave_trip` succeeds and the list
becomes `l₁ ++ l₂`: exactly the first occurrence is removed and every
other element — later duplicates of `p` included — keeps its relative
order; when `p` is absent, `leave_trip` fails with `NotOnTripError`. -/
theorem c7_leave_first_occurrence (p : Passenger) (trip : TrainTrip) :
    (∀ l₁ l₂, trip.passengers = l₁ ++ p :: l₂ → p ∉ l₁ →
      (p.leave_trip trip).1 = .ok () ∧
      (p.leave_trip trip).2.1.passengers = l₁ ++ l₂) ∧
    (p ∉ trip.passengers → (p.leave_trip trip).1 = .error .notOnTrip) := by
  constructor
  · intro l₁ l₂ hsplit hnot
    have hmem : p ∈ trip.passengers := by
      rw [hsplit]
      exact List.mem_append_right _ (List.mem_cons_self p l₂)
    have herase : trip.passengers.erase p = l₁ ++ l₂ := by
      rw [hsplit, List.erase_append_right _ hnot, List.erase_cons_head]
    simp [Passenger.leave_trip, hmem, herase]
  · intro hmem
    simp [Passenger.leave_trip, hmem]

/-- C7 (witness): leaving `ali` from `[abolfazl, ali, ali]` removes the
first `ali` only, and leaving `ali` when absent fails. -/
theorem c7_leave_first_occurrence_w :
    ((ali.leave_trip
        ⟨sampleTrain, "Sanandaj", "Rasht", [abolfazl, ali, ali]⟩).1 =
          .ok () ∧
     (ali.leave_trip
        ⟨sampleTrain, "Sanandaj", "Rasht",
          [abolfazl, ali, ali]⟩).2.1.passengers = [abolfazl] ++ [ali]) ∧
    (ali.leave_trip ⟨sampleTrain, "Sanandaj", "Rasht", [abolfazl]⟩).1 =
      .error .notOnTrip :=
  ⟨(c7_leave_first_occurrence ali
      ⟨sampleTrain, "Sanandaj", "Rasht", [abolfazl, ali, ali]⟩).1
      [abolfazl] [ali] rfl (by decide),
   (c7_leave_first_occurrence ali
      ⟨sampleTrain, "Sanandaj", "Rasht", [abolfazl]⟩).2 (by decide)⟩

/-- C8: assuming non-negative cargo weights and a non-negative
`max_cargo_weight`, the invariant `cargoSum passengers ≤
train.max_cargo_weight` holds right after construction and is preserved
by every `join_trip` and `leave_trip`, successful or failing. -/
theorem c8_capacity_invariant :
    (∀ o d a trip, TrainTrip.new o d a = .ok trip →
      0 ≤ trip.train.max_cargo_weight → trip.capacityInv) ∧
    (∀ (p : Passenger) (trip : TrainTrip), trip.capacityInv →
      ((p.join_trip trip).2.1).capacityInv) ∧
    (∀ (p : Passenger) (trip : TrainTrip),
      (∀ q ∈ trip.passengers, 0 ≤ q.cargo_weight) → trip.capacityInv →
      ((p.leave_trip trip).2.1).capacityInv) := by
  refine ⟨fun o d a trip h hw => ?_, fun p trip hinv => ?_,
    fun p trip hq hinv => ?_⟩
  · cases a with
    | other => exact absurd h (by simp [new_other_eq])
    | train t =>
      rcases (new_train_ok_iff o d t trip).1 h with ⟨-, -, -, -, rfl⟩
      simpa [TrainTrip.capacityInv, cargoSum] using hw
  · by_cases hc : p.cargo_weight ≤ trip.__call__
    · have hc' := hc
      rw [call_eq_sub] at hc'
      simp only [Passenger.join_trip, if_pos hc]
      simp only [TrainTrip.capacityInv, cargoSum_append] at *
      linarith
    · simp only [Passenger.join_trip, if_neg hc]
      exact hinv
  · by_cases hmem : p ∈ trip.passengers
    · have hsum := cargoSum_erase p trip.passengers hmem
      have hp : 0 ≤ p.cargo_weight := hq p hmem
      simp only [Passenger.leave_trip, if_pos hmem]
      simp only [TrainTrip.capacityInv] at *
      linarith
    · simp only [Passenger.leave_trip, if_neg hmem]
      exact hinv

/-- C8 (witness): the invariant at construction, after a join, and after
a leave, on the sample fixtures. -/
theorem c8_capacity_invariant_w :
    sampleTrip.capacityInv ∧
    ((ali.join_trip sampleTrip).2.1).capacityInv ∧
    ((ali.leave_trip
        ⟨sampleTrain, "Sanandaj", "Rasht", [ali]⟩).2.1).capacityInv :=
  ⟨c8_capacity_invariant.1 "Sanandaj" "Rasht" (.train sampleTrain)
      sampleTrip (by decide) (by decide),
   c8_capacity_invariant.2.1 ali sampleTrip
      (by simp only [TrainTrip.capacityInv]; decide),
   c8_capacity_invariant.2.2 ali
      ⟨sampleTrain, "Sanandaj", "Rasht", [ali]⟩ (by decide)
      (by simp only [TrainTrip.capacityInv]; decide)⟩

/-- C9: a successful construction leaves every field of the train
argument unchanged — `on_trip` is not set to true, `last_station` is not
updated, `max_cargo_weight` is untouched: the constructor only reads the
train. -/
theorem c9_train_not_mutated (o d : String) (t : Train) (trip : TrainTrip)
    (h : TrainTrip.new o d (.train t) = .ok trip) :
    trip.train = t ∧ trip.train.on_trip = t.on_trip ∧
    trip.train.last_station = t.last_station ∧
    trip.train.max_cargo_weight = t.max_cargo_weight := by
  rcases (new_train_ok_iff o d t trip).1 h with ⟨-, -, -, -, rfl⟩
  exact ⟨rfl, rfl, rfl, rfl⟩

/-- C9 (witness): `c9_train_not_mutated` at the sample construction. -/
theorem c9_train_not_mutated_w :
    sampleTrip.train = sampleTrain ∧
    sampleTrip.train.on_trip = sampleTrain.on_trip ∧
    sampleTrip.train.last_station = sampleTrain.last_station ∧
    sampleTrip.train.max_cargo_weight = sampleTrain.max_cargo_weight :=
  c9_train_not_mutated "Sanandaj" "Rasht" sampleTrain sampleTrip (by decide)

/-- C10: a `leave_trip` by a passenger not aboard raises `NotOnTripError`
with `trip.passengers` (indeed the whole trip state) unchanged, and no
`leave_trip` call — failing or successful — modifies the passenger's own
fields or the trip's train. -/
theorem c10_leave_error_frame (p : Passenger) (trip : TrainTrip) :
    (p ∉ trip.passengers →
      (p.leave_trip trip).1 = .error .notOnTrip ∧
      (p.leave_trip trip).2.1 = trip) ∧
    (p.leave_trip trip).2.2 = p ∧
    (p.leave_trip trip).2.1.train = trip.train := by
  by_cases hmem : p ∈ trip.passengers
  · simp [Passenger.leave_trip, hmem]
  · simp [Passenger.leave_trip, hmem]

/-- C10 (witness): `c10_leave_error_frame` with `ali` absent from the
sample trip. -/
theorem c10_leave_error_frame_w :
    ((ali.leave_trip sampleTrip).1 = .error .notOnTrip ∧
     (ali.leave_trip sampleTrip).2.1 = sampleTrip) ∧
    (ali.leave_trip sampleTrip).2.2 = ali ∧
    (ali.leave_trip sampleTrip).2.1.train = sampleTrip.train :=
  ⟨(c10_leave_error_frame ali sampleTrip).1 (by decide),
   (c10_leave_error_frame ali sampleTrip).2⟩
